import Mathlib

/-!
Verification development for the WhatsApp messaging backend
(`whatsapp.service.ts` and `templates.service.ts`).

The definitions below are shallow embeddings of the TypeScript source:
pure helpers become Lean functions, Prisma-backed state becomes an explicit
`DbState` record threaded through the operations, provider network calls
become an explicit `ProviderResult` argument, and thrown
`BadRequestException`s become explicit outcome values / `Except` errors.
-/

/- ### Placeholder extraction (`templates.service.ts`, regex `/{{(\d+)}}/g`) -/

/-- Numeric value of a run of decimal digit characters (JS `parseInt(ds, 10)`
on a pure digit string). -/
def digitsVal (ds : List Char) : Nat :=
  ds.foldl (fun acc c => acc * 10 + (c.toNat - 48)) 0

/-- Fuel-driven scan of the JS regex `/{{(\d+)}}/g`: a match is `{{`, a
maximal non-empty digit run, then `}}`; on a failed match the scan advances
one character, exactly as the JS regex engine does. Each step consumes at
least one character, so fuel equal to the list length is always enough. -/
def extractPlaceholdersGo : Nat → List Char → List Nat
  | 0, _ => []
  | _ + 1, [] => []
  | fuel + 1, '{' :: '{' :: rest =>
      let ds := rest.takeWhile Char.isDigit
      match rest.dropWhile Char.isDigit with
      | '}' :: '}' :: tail =>
          if ds.isEmpty then extractPlaceholdersGo fuel ('{' :: rest)
          else digitsVal ds :: extractPlaceholdersGo fuel tail
      | _ => extractPlaceholdersGo fuel ('{' :: rest)
  | fuel + 1, _ :: rest => extractPlaceholdersGo fuel rest

/-- All matches of the JS regex `/{{(\d+)}}/g` over a character list, in
order, as parsed numbers. -/
def extractPlaceholders (l : List Char) : List Nat :=
  extractPlaceholdersGo l.length l

deriving instance DecidableEq for Except

/-- Scan of `validatePlaceholderSequence`'s while-loop: the error raised at
the first placeholder index that is `< 1` or `> 10`, if any. -/
def firstPlaceholderError : List Nat → Option String
  | [] => none
  | i :: rest =>
      if i < 1 then
        some "Placeholder indexes must be positive numbers (e.g., \x7b\x7b1\x7d\x7d)"
      else if i > 10 then
        some "A maximum of 10 placeholders (\x7b\x7b1\x7d\x7d to \x7b\x7b10\x7d\x7d) are allowed in the body"
      else firstPlaceholderError rest

/-- Maximum of a list of naturals, 0 on the empty list (`Math.max(...found)`
is only consulted when the set is non-empty). -/
def maxPlaceholder (l : List Nat) : Nat := l.foldl max 0

/-- Embeds `validatePlaceholderSequence` from `templates.service.ts`: every `{{n}}`
token must have `1 ≤ n ≤ 10`, and if any placeholders exist, every integer
from 1 to the maximum must be present. -/
def validatePlaceholderSequence (text : String) : Except String Unit :=
  let idxs := extractPlaceholders text.data
  match firstPlaceholderError idxs with
  | some msg => Except.error msg
  | none =>
      if idxs.isEmpty then Except.ok ()
      else if (List.range (maxPlaceholder idxs)).all (fun i => idxs.contains (i + 1)) then
        Except.ok ()
      else
        Except.error "Placeholders must be sequential without gaps (e.g., \x7b\x7b1\x7d\x7d, \x7b\x7b2\x7d\x7d, ...)"

/-- Insertion into a sorted list (ascending). -/
def insertSorted (n : Nat) : List Nat → List Nat
  | [] => [n]
  | m :: rest => if n ≤ m then n :: m :: rest else m :: insertSorted n rest

/-- Insertion sort, ascending (`Array.from(indexes).sort((a, b) => a - b)`). -/
def sortNat (l : List Nat) : List Nat := l.foldr insertSorted []

/-- Embeds `getPlaceholderIndexes` from `templates.service.ts`: the distinct
positive `{{n}}` indices of a text, sorted ascending. -/
def getPlaceholderIndexes (text : String) : List Nat :=
  sortNat (((extractPlaceholders text.data).filter (fun v => 0 < v)).eraseDups)

/- ### Phone normalization (`whatsapp.service.ts`) -/

/-- Character-level body of `normalizePhoneNumber`: strip every character
other than a decimal digit or `+`; then a string already starting with `+`
passes through, a leading `0` is replaced by the default country code `+1`,
and otherwise a bare `+` is prefixed. -/
def normalizePhoneChars (cs : List Char) : List Char :=
  let stripped := cs.filter (fun c => c.isDigit || c == '+')
  match stripped with
  | [] => '+' :: []
  | c :: rest =>
      if c = '+' then c :: rest
      else if c = '0' then '+' :: '1' :: rest
      else '+' :: c :: rest

/-- Embeds `normalizePhoneNumber` from `whatsapp.service.ts`. -/
def normalizePhoneNumber (s : String) : String := String.mk (normalizePhoneChars s.data)

/-- The dispatcher's phone validation regex `/^\+\d{10,}$/`. -/
def isValidPhone (s : String) : Bool :=
  match s.data with
  | '+' :: rest => rest.all Char.isDigit && decide (10 ≤ rest.length)
  | _ => false

/-- Modelled from the claim's words (refinement comparison only): strip all
characters other than digits and `+`; if the result starts with `0` replace
the leading zero with `+1`; if it does not start with `+` prefix a bare `+`;
an already-`+`-prefixed number passes through unchanged. -/
def normalizePhoneSpec (s : String) : String :=
  let stripped := s.data.filter (fun c => c.isDigit || c == '+')
  match stripped with
  | [] => String.mk ('+' :: [])
  | c :: rest =>
      if c = '0' then String.mk ('+' :: '1' :: rest)
      else if c ≠ '+' then String.mk ('+' :: c :: rest)
      else String.mk (c :: rest)

example : normalizePhoneNumber "0987654321" = "+1987654321" := by decide
example : normalizePhoneNumber "987-654-3210" = "+9876543210" := by decide
example : normalizePhoneNumber "+44987654321" = "+44987654321" := by decide
example : extractPlaceholders "Hi \x7b\x7b1\x7d\x7d and \x7b\x7b3\x7d\x7d".data = [1, 3] := by decide
example : validatePlaceholderSequence "Hi \x7b\x7b1\x7d\x7d and \x7b\x7b3\x7d\x7d" =
    Except.error "Placeholders must be sequential without gaps (e.g., \x7b\x7b1\x7d\x7d, \x7b\x7b2\x7d\x7d, ...)" := by decide
example : validatePlaceholderSequence "Hi \x7b\x7b1\x7d\x7d and \x7b\x7b2\x7d\x7d" = Except.ok () := by decide
example : getPlaceholderIndexes "x \x7b\x7b2\x7d\x7d \x7b\x7b1\x7d\x7d \x7b\x7b2\x7d\x7d" = [1, 2] := by decide


/- ### Kernel-computable string helpers (JS semantics at the char level) -/

/-- JS `String.prototype.trim` at the character-list level. -/
def jsTrim (s : String) : String :=
  String.mk (((s.data.dropWhile Char.isWhitespace).reverse.dropWhile
    Char.isWhitespace).reverse)

/-- JS `String.prototype.toUpperCase` (ASCII, as the service uses it). -/
def strToUpper (s : String) : String := String.mk (s.data.map Char.toUpper)

/-- JS `String.prototype.toLowerCase` (ASCII, as the service uses it). -/
def strToLower (s : String) : String := String.mk (s.data.map Char.toLower)

/-- JS `String.prototype.includes` for a single character. -/
def strContains (s : String) (c : Char) : Bool := s.data.contains c

/-- JS `String.prototype.split` on a single separator character, at the
character-list level. -/
def splitOnCharList (sep : Char) : List Char → List (List Char)
  | [] => [[]]
  | c :: rest =>
      let r := splitOnCharList sep rest
      if c = sep then [] :: r
      else (c :: r.headD []) :: r.tail

/-- JS `String.prototype.split` on a single separator character. -/
def splitOnChar (sep : Char) (s : String) : List String :=
  (splitOnCharList sep s.data).map String.mk

/- ### Data model (Prisma schema, fields used by the messaging engine) -/

/-- Message delivery status enum. -/
inductive MessageStatus
  | SCHEDULED | SENDING | SENT | DELIVERED | READ | FAILED
deriving DecidableEq, Repr

/-- Message direction enum. -/
inductive Direction
  | INBOUND | OUTBOUND
deriving DecidableEq, Repr

/-- Message type enum (the variants the engine produces). -/
inductive MessageType
  | TEXT | TEMPLATE | IMAGE | VIDEO | DOCUMENT | AUDIO
deriving DecidableEq, Repr

/-- Conversation status enum. -/
inductive ConvStatus
  | OPEN | RESOLVED | CLOSED
deriving DecidableEq, Repr

/-- Contact row: unique on (companyId, phone). Row ids are modelled as
naturals drawn from a fresh-id counter. -/
structure Contact where
  id : Nat
  companyId : String
  phone : String
  lastMessageAt : Option Int := none
deriving DecidableEq, Repr

/-- Conversation row: unique on (companyId, contactId). -/
structure Conversation where
  id : Nat
  companyId : String
  contactId : Nat
  status : ConvStatus
  lastMessageAt : Option Int := none
deriving DecidableEq, Repr

/-- Message row. Timestamps are epoch milliseconds. -/
structure Message where
  companyId : String
  contactId : Nat
  conversationId : Nat
  whatsappMessageId : Option String := none
  type : MessageType
  direction : Direction
  content : String
  status : MessageStatus
  error : Option String := none
  sentAt : Option Int := none
  deliveredAt : Option Int := none
  readAt : Option Int := none
deriving DecidableEq, Repr

/-- Company (tenant) row: the WhatsApp connection fields consulted by the
dispatcher. Optional string fields model nullable columns; JS truthiness
additionally treats the empty string as absent. -/
structure Company where
  id : String
  whatsappConnected : Bool
  whatsappAccessToken : Option String := none
  whatsappPhoneId : Option String := none
deriving DecidableEq, Repr

/-- Database state threaded through the operations, with a fresh-id counter
for created rows. -/
structure DbState where
  companies : List Company
  contacts : List Contact
  conversations : List Conversation
  messages : List Message
  nextId : Nat
deriving DecidableEq, Repr

/-- JS truthiness of an optional string column (`!x` is true for
null/undefined and for the empty string). -/
def truthyStr : Option String → Bool
  | none => false
  | some s => s ≠ ""

/-- Prisma `company.findUnique({ where: { id } })`. -/
def findCompany (db : DbState) (companyId : String) : Option Company :=
  db.companies.find? (fun c => c.id == companyId)

/-- Prisma `contact.findUnique` by the (companyId, phone) natural key. -/
def findContact (db : DbState) (companyId phone : String) : Option Contact :=
  db.contacts.find? (fun c => c.companyId == companyId && c.phone == phone)

/-- Prisma `conversation.findUnique` by the (companyId, contactId) key. -/
def findConversation (db : DbState) (companyId : String) (contactId : Nat) :
    Option Conversation :=
  db.conversations.find? (fun c => c.companyId == companyId && c.contactId == contactId)

/-- Find-or-create of a Contact as `sendTextMessage` performs it (created
rows carry no lastMessageAt). -/
def findOrCreateContact (db : DbState) (companyId phone : String) : Contact × DbState :=
  match findContact db companyId phone with
  | some c => (c, db)
  | none =>
      let c : Contact := { id := db.nextId, companyId := companyId, phone := phone }
      (c, { db with contacts := db.contacts ++ [c], nextId := db.nextId + 1 })

/-- Find-or-create of a Conversation as `sendTextMessage` performs it
(created with status OPEN and no lastMessageAt). -/
def findOrCreateConversation (db : DbState) (companyId : String) (contactId : Nat) :
    Conversation × DbState :=
  match findConversation db companyId contactId with
  | some c => (c, db)
  | none =>
      let c : Conversation :=
        { id := db.nextId, companyId := companyId, contactId := contactId,
          status := ConvStatus.OPEN }
      (c, { db with conversations := db.conversations ++ [c], nextId := db.nextId + 1 })

/- ### Messaging-window policy (`whatsapp.service.ts`) -/

/-- Embeds `hasActiveConversationWindow`: a Conversation for the key exists,
its lastMessageAt is non-null, and strictly fewer than 24 hours (in
milliseconds) have elapsed at evaluation time. -/
def hasActiveConversationWindow (db : DbState) (companyId : String) (contactId : Nat)
    (now : Int) : Bool :=
  match findConversation db companyId contactId with
  | none => false
  | some conversation =>
      match conversation.lastMessageAt with
      | none => false
      | some t => decide (now - t < 24 * 60 * 60 * 1000)

/-- Embeds `hasOutboundMessageHistory`: some prior Message with direction
OUTBOUND and status in SENT/DELIVERED/READ. -/
def hasOutboundMessageHistory (db : DbState) (companyId : String) (contactId : Nat) : Bool :=
  db.messages.any (fun m =>
    m.companyId == companyId && m.contactId == contactId &&
    m.direction == Direction.OUTBOUND &&
    (m.status == MessageStatus.SENT || m.status == MessageStatus.DELIVERED ||
      m.status == MessageStatus.READ))

/- ### Outbound dispatcher (`whatsapp.service.ts`) -/

/-- Outcome of the provider network call: an HTTP-success response carrying
the optional id of `response.data.messages[0]` (none models both a missing
messages array and a first entry without an id), or an HTTP-level error
carrying the optional `error.message` of the provider body. -/
inductive ProviderResult
  | ok (messageId : Option String)
  | err (message : Option String)
deriving DecidableEq, Repr

/-- Observable outcome of a send attempt; `sendFailed` carries the error
text persisted on the FAILED Message row. -/
inductive SendOutcome
  | notConnected
  | phoneNotConfigured
  | invalidPhone
  | windowClosed
  | sent (whatsappMessageId : String)
  | sendFailed (error : String)
deriving DecidableEq, Repr

/-- Updates `conversation.lastMessageAt` by conversation id. -/
def updateConversationLastMessage (db : DbState) (conversationId : Nat) (now : Int) :
    DbState :=
  { db with
    conversations := db.conversations.map (fun c =>
      if c.id == conversationId then { c with lastMessageAt := some now } else c) }

/-- Appends the FAILED Message row the dispatcher's catch block persists. -/
def appendFailedMessage (db : DbState) (companyId : String) (contactId conversationId : Nat)
    (type : MessageType) (content errText : String) (now : Int) : DbState :=
  { db with
    messages := db.messages ++
      [{ companyId := companyId, contactId := contactId, conversationId := conversationId,
         type := type, direction := Direction.OUTBOUND, content := content,
         status := MessageStatus.FAILED, error := some errText, sentAt := some now }] }

/-- Embeds `sendTextMessage` from `whatsapp.service.ts`: connection checks,
phone normalization/validation, find-or-create of Contact and Conversation,
the 24-hour window policy gate, then the provider call with its
success/failure persistence. -/
def sendTextMessage (db : DbState) (companyId phoneNumber message : String)
    (now : Int) (provider : ProviderResult) : SendOutcome × DbState :=
  match findCompany db companyId with
  | none => (SendOutcome.notConnected, db)
  | some company =>
      if !company.whatsappConnected || !truthyStr company.whatsappAccessToken then
        (SendOutcome.notConnected, db)
      else if !truthyStr company.whatsappPhoneId then
        (SendOutcome.phoneNotConfigured, db)
      else
        let normalizedPhone := normalizePhoneNumber phoneNumber
        if !isValidPhone normalizedPhone then
          (SendOutcome.invalidPhone, db)
        else
          let contactDb := findOrCreateContact db companyId normalizedPhone
          let contact := contactDb.1
          let convDb := findOrCreateConversation contactDb.2 companyId contact.id
          let conversation := convDb.1
          let db2 := convDb.2
          let hasActiveWindow := hasActiveConversationWindow db2 companyId contact.id now
          let hasMessageHistory := hasOutboundMessageHistory db2 companyId contact.id
          if !hasActiveWindow && !hasMessageHistory then
            (SendOutcome.windowClosed, db2)
          else
            match provider with
            | ProviderResult.ok messageId =>
                if truthyStr messageId then
                  let wid := messageId.getD ""
                  let db3 := updateConversationLastMessage db2 conversation.id now
                  (SendOutcome.sent wid,
                    { db3 with
                      messages := db3.messages ++
                        [{ companyId := companyId, contactId := contact.id,
                           conversationId := conversation.id,
                           whatsappMessageId := some wid, type := MessageType.TEXT,
                           direction := Direction.OUTBOUND, content := message,
                           status := MessageStatus.SENT, sentAt := some now }] })
                else
                  (SendOutcome.sendFailed "Failed to send message",
                    appendFailedMessage db2 companyId contact.id conversation.id
                      MessageType.TEXT message "Failed to send message" now)
            | ProviderResult.err errMessage =>
                let errText := errMessage.getD "Failed to send message"
                (SendOutcome.sendFailed errText,
                  appendFailedMessage db2 companyId contact.id conversation.id
                    MessageType.TEXT message errText now)

/-- Embeds `sendTemplateMessage` from `whatsapp.service.ts`: the same
pipeline as `sendTextMessage` but with no window-policy gate and a TEMPLATE
typed Message row. -/
def sendTemplateMessage (db : DbState) (companyId phoneNumber templateName : String)
    (now : Int) (provider : ProviderResult) : SendOutcome × DbState :=
  match findCompany db companyId with
  | none => (SendOutcome.notConnected, db)
  | some company =>
      if !company.whatsappConnected || !truthyStr company.whatsappAccessToken then
        (SendOutcome.notConnected, db)
      else if !truthyStr company.whatsappPhoneId then
        (SendOutcome.phoneNotConfigured, db)
      else
        let normalizedPhone := normalizePhoneNumber phoneNumber
        if !isValidPhone normalizedPhone then
          (SendOutcome.invalidPhone, db)
        else
          let contactDb := findOrCreateContact db companyId normalizedPhone
          let contact := contactDb.1
          let convDb := findOrCreateConversation contactDb.2 companyId contact.id
          let conversation := convDb.1
          let db2 := convDb.2
          let content := "Template: " ++ templateName
          match provider with
          | ProviderResult.ok messageId =>
              if truthyStr messageId then
                let wid := messageId.getD ""
                let db3 := updateConversationLastMessage db2 conversation.id now
                (SendOutcome.sent wid,
                  { db3 with
                    messages := db3.messages ++
                      [{ companyId := companyId, contactId := contact.id,
                         conversationId := conversation.id,
                         whatsappMessageId := some wid, type := MessageType.TEMPLATE,
                         direction := Direction.OUTBOUND, content := content,
                         status := MessageStatus.SENT, sentAt := some now }] })
              else
                (SendOutcome.sendFailed "Failed to send template message",
                  appendFailedMessage db2 companyId contact.id conversation.id
                    MessageType.TEMPLATE content "Failed to send template message" now)
          | ProviderResult.err errMessage =>
              let errText := errMessage.getD "Failed to send template message"
              (SendOutcome.sendFailed errText,
                appendFailedMessage db2 companyId contact.id conversation.id
                  MessageType.TEMPLATE content errText now)

/- ### Webhook status ingestion (`whatsapp.service.ts`) -/

/-- One entry of a webhook `statuses` batch: the remote message id, the raw
status string, and the optional first reported error message. -/
structure StatusEvent where
  id : String
  status : String
  firstErrorMessage : Option String := none
deriving DecidableEq, Repr

/-- Embeds `mapWhatsAppStatus`: the fixed status map with SENT as the
default for unrecognized strings. -/
def mapWhatsAppStatus (status : String) : MessageStatus :=
  if status = "sent" then MessageStatus.SENT
  else if status = "delivered" then MessageStatus.DELIVERED
  else if status = "read" then MessageStatus.READ
  else if status = "failed" then MessageStatus.FAILED
  else MessageStatus.SENT

/-- Whether a Message row is matched by a status event's `updateMany`
predicate (same company, same remote message id). -/
def matchesStatusEvent (companyId : String) (ev : StatusEvent) (m : Message) : Bool :=
  m.companyId == companyId && m.whatsappMessageId == some ev.id

/-- The per-row effect of `processStatusUpdates`' `updateMany`: matched rows
get the mapped status, a deliveredAt/readAt stamp when applicable, and the
first reported error detail on failure; unmatched rows are untouched. -/
def applyStatusUpdate (companyId : String) (ev : StatusEvent) (now : Int)
    (m : Message) : Message :=
  if matchesStatusEvent companyId ev m then
    { m with
      status := mapWhatsAppStatus ev.status,
      deliveredAt := if ev.status = "delivered" then some now else m.deliveredAt,
      readAt := if ev.status = "read" then some now else m.readAt,
      error := if ev.status = "failed" then
          some (ev.firstErrorMessage.getD "Message delivery failed")
        else m.error }
  else m

/-- Embeds `processStatusUpdates`: each event of a batch updates every
Message row matched by companyId and remote message id. -/
def processStatusUpdates (companyId : String) (statuses : List StatusEvent) (now : Int)
    (db : DbState) : DbState :=
  statuses.foldl
    (fun acc ev =>
      { acc with messages := acc.messages.map (applyStatusUpdate companyId ev now) })
    db

/- ### Template components (`templates.service.ts`) -/

/-- Value found under a component example's `body_text` key: either a flat
array of samples or an array of arrays (the provider's nested convention). -/
inductive BodyTextVal
  | flat (samples : List String)
  | nested (rows : List (List String))
deriving DecidableEq, Repr

/-- Example payload attached to a component. `header_text`/`header_examples`
are flat sample arrays, `header_handle` is the media-header handle list. -/
structure CompExample where
  body_text : Option BodyTextVal := none
  header_text : Option (List String) := none
  header_examples : Option (List String) := none
  header_handle : Option (List String) := none
deriving DecidableEq, Repr

/-- Template component as handled by the service: raw `type`/`format`
strings, optional text, optional example, opaque buttons/variables. -/
structure Component where
  type : String
  format : Option String := none
  text : Option String := none
  «example» : Option CompExample := none
  buttons : Option (List String) := none
  «variables» : Option String := none
deriving DecidableEq, Repr

/-- First normalization pass of `normalizeAndValidateComponents`: uppercase
`type`, uppercase `format` when truthy else default a HEADER's format to
TEXT, keep text/example/buttons as given. -/
def normalizeComponent (c : Component) : Component :=
  { c with
    type := strToUpper c.type,
    format :=
      match c.format with
      | some f =>
          if f = "" then (if strToUpper c.type = "HEADER" then some "TEXT" else none)
          else some (strToUpper f)
      | none => if strToUpper c.type = "HEADER" then some "TEXT" else none }

/-- Replace the first list element satisfying `p` (the service mutates the
component object returned by `Array.prototype.find`). -/
def replaceFirst (p : Component → Bool) (f : Component → Component) :
    List Component → List Component
  | [] => []
  | c :: rest => if p c then f c :: rest else c :: replaceFirst p f rest

/-- Extraction of the body sample source: a nested array contributes its
first row, a flat array is used directly, anything absent contributes
nothing. -/
def exampleSourceOf : Option BodyTextVal → List String
  | none => []
  | some (BodyTextVal.flat xs) => xs
  | some (BodyTextVal.nested rows) => rows.headD []

/-- Embeds `normalizeAndValidateComponents` from `templates.service.ts`:
normalization pass, mandatory non-empty BODY of at most 1024 characters,
placeholder sequencing, body sample handling (trim, drop empties, require at
least as many surviving samples as placeholders, store nested-once),
header format/text/sample rules (header samples stored flat), footer length
bound. -/
def normalizeAndValidateComponents (rawComponents : List Component) :
    Except String (List Component) :=
  if rawComponents.isEmpty then
    Except.error "At least one template component is required"
  else
    let components := rawComponents.map normalizeComponent
    match components.find? (fun c => c.type == "BODY") with
    | none => Except.error "Template body is required and cannot be empty"
    | some body =>
        match body.text with
        | none => Except.error "Template body is required and cannot be empty"
        | some rawBodyText =>
            if jsTrim rawBodyText = "" then
              Except.error "Template body is required and cannot be empty"
            else
              let bodyText := jsTrim rawBodyText
              if bodyText.length > 1024 then
                Except.error "Body text cannot exceed 1024 characters"
              else
                let bodyPlaceholderIndexes := getPlaceholderIndexes bodyText
                match validatePlaceholderSequence bodyText with
                | Except.error msg => Except.error msg
                | Except.ok _ =>
                    let bodyStep : Except String Component :=
                      if bodyPlaceholderIndexes.length > 0 then
                        let exampleSource :=
                          exampleSourceOf (body.«example».bind (fun e => e.body_text))
                        let normalizedSamples :=
                          (exampleSource.map jsTrim).filter (fun s => s ≠ "")
                        if normalizedSamples.length < bodyPlaceholderIndexes.length then
                          Except.error "Provide sample values for every body placeholder (\x7b\x7b1\x7d\x7d, \x7b\x7b2\x7d\x7d, ...)."
                        else if normalizedSamples.any (fun s => s = "") then
                          Except.error "Body placeholder samples cannot be empty."
                        else
                          Except.ok { body with
                            «example» := some
                              { body_text :=
                                  some (BodyTextVal.nested [normalizedSamples]) } }
                      else
                        match body.«example» with
                        | some ex =>
                            Except.ok { body with «example» := some { ex with body_text := none } }
                        | none => Except.ok body
                    match bodyStep with
                    | Except.error msg => Except.error msg
                    | Except.ok newBody =>
                        let components1 :=
                          replaceFirst (fun c => c.type == "BODY") (fun _ => newBody)
                            components
                        let headerStep : Except String (List Component) :=
                          match components1.find? (fun c => c.type == "HEADER") with
                          | none => Except.ok components1
                          | some header =>
                              let headerFormat :=
                                match header.format with
                                | some f => if f = "" then "TEXT" else f
                                | none => "TEXT"
                              let formatCheck : Except String Unit :=
                                if headerFormat = "TEXT" then
                                  match header.text with
                                  | none =>
                                      Except.error "Header text is required when header format is TEXT"
                                  | some t =>
                                      if jsTrim t = "" then
                                        Except.error "Header text is required when header format is TEXT"
                                      else if (jsTrim t).length > 60 then
                                        Except.error "Header text cannot exceed 60 characters"
                                      else Except.ok ()
                                else if truthyStr header.text then
                                  Except.error
                                    ("Header text is not allowed when using " ++ headerFormat ++ " format")
                                else Except.ok ()
                              match formatCheck with
                              | Except.error msg => Except.error msg
                              | Except.ok _ =>
                                  if truthyStr header.text then
                                    let htext := header.text.getD ""
                                    let headerPlaceholders := getPlaceholderIndexes htext
                                    if headerPlaceholders.length > 0 then
                                      let headerExample :=
                                        match header.«example».bind (fun e => e.header_text) with
                                        | some xs => some xs
                                        | none => header.«example».bind (fun e => e.header_examples)
                                      let normalizedHeaderSamples :=
                                        match headerExample with
                                        | some xs => xs.map jsTrim
                                        | none => []
                                      if normalizedHeaderSamples.length < headerPlaceholders.length
                                          || normalizedHeaderSamples.any (fun s => s = "") then
                                        Except.error "Provide sample text for each header placeholder."
                                      else
                                        Except.ok (replaceFirst (fun c => c.type == "HEADER")
                                          (fun _ => { header with
                                            «example» := some
                                              { header_text := some normalizedHeaderSamples } })
                                          components1)
                                    else
                                      match header.«example» with
                                      | some ex =>
                                          Except.ok (replaceFirst (fun c => c.type == "HEADER")
                                            (fun _ => { header with
                                              «example» := some { ex with header_text := none } })
                                            components1)
                                      | none => Except.ok components1
                                  else Except.ok components1
                        match headerStep with
                        | Except.error msg => Except.error msg
                        | Except.ok components2 =>
                            match components2.find? (fun c => c.type == "FOOTER") with
                            | some footer =>
                                if truthyStr footer.text
                                    && (footer.text.getD "").length > 60 then
                                  Except.error "Footer text cannot exceed 60 characters"
                                else Except.ok components2
                            | none => Except.ok components2

/- ### Provider payload builder (`templates.service.ts`) -/

/-- Example payload in the remote wire schema: `body_text` is a 2D array,
`header_text` a flat array. -/
structure MetaExample where
  body_text : Option (List (List String)) := none
  header_text : Option (List String) := none
  header_handle : Option (List String) := none
deriving DecidableEq, Repr

/-- Component in the remote wire schema. -/
structure MetaComponent where
  type : String
  format : Option String := none
  text : Option String := none
  «example» : Option MetaExample := none
  buttons : Option (List String) := none
  «variables» : Option String := none
deriving DecidableEq, Repr

/-- Per-component body of `buildMetaComponents`: copy type, truthy format
and text; emit `body_text` wrapped once when not already nested, emit
`header_text` flat, pass `header_handle` through; omit the example object
when nothing was emitted; pass non-empty buttons and variables verbatim. -/
def buildMetaComponent (c : Component) : MetaComponent :=
  let bodyOut : Option (List (List String)) :=
    match c.«example».bind (fun e => e.body_text) with
    | none => none
    | some (BodyTextVal.flat xs) => if xs.isEmpty then none else some [xs]
    | some (BodyTextVal.nested rows) => if rows.isEmpty then none else some rows
  let headerOut : Option (List String) :=
    match c.«example».bind (fun e => e.header_text) with
    | none => none
    | some xs => if xs.isEmpty then none else some xs
  let handleOut : Option (List String) :=
    match c.«example» with
    | none => none
    | some ex => ex.header_handle
  { type := c.type,
    format := match c.format with
      | some f => if f = "" then none else some f
      | none => none,
    text := match c.text with
      | some t => if t = "" then none else some t
      | none => none,
    «example» :=
      if c.«example».isSome && (bodyOut.isSome || headerOut.isSome || handleOut.isSome) then
        some { body_text := bodyOut, header_text := headerOut, header_handle := handleOut }
      else none,
    buttons := match c.buttons with
      | some bs => if bs.isEmpty then none else some bs
      | none => none,
    «variables» := c.«variables» }

/-- Embeds `buildMetaComponents` from `templates.service.ts`. -/
def buildMetaComponents (components : List Component) : List MetaComponent :=
  components.map buildMetaComponent

/- ### Template lifecycle (`templates.service.ts`) -/

/-- Template lifecycle status enum. -/
inductive TemplateStatus
  | DRAFT | PENDING | APPROVED | REJECTED
deriving DecidableEq, Repr

/-- Template category enum. -/
inductive TemplateCategory
  | MARKETING | UTILITY | AUTHENTICATION
deriving DecidableEq, Repr

/-- Embeds `sanitizeTemplateName`: lowercase, then replace every character
outside `[a-z0-9_]` with an underscore. -/
def sanitizeTemplateName (name : String) : String :=
  String.mk ((strToLower name).data.map (fun c =>
    if c.isLower || c.isDigit || c = '_' then c else '_'))

/-- Embeds `normalizeLanguageCode`: empty input defaults to en_US; a code
containing an underscore is split into its first two segments and recased as
`lang_REGION`; otherwise the trimmed code is lowercased. -/
def normalizeLanguageCode (code : String) : String :=
  if code = "" then "en_US"
  else
    let trimmed := jsTrim code
    if strContains trimmed '_' then
      let parts := splitOnChar '_' trimmed
      strToLower (parts.headD "") ++ "_" ++ strToUpper (parts.getD 1 "")
    else strToLower trimmed

/-- Template row (the fields the update/sync paths touch). -/
structure Template where
  id : Nat
  companyId : String
  name : String
  language : String
  category : TemplateCategory
  components : List Component
  status : TemplateStatus
  whatsappTemplateId : Option String := none
  rejectionReason : Option String := none
deriving DecidableEq, Repr

/-- Partial update payload of the `update` endpoint
(`Partial<CreateTemplateDto>`). -/
structure UpdateTemplateData where
  name : Option String := none
  language : Option String := none
  category : Option TemplateCategory := none
  components : Option (List Component) := none
deriving DecidableEq, Repr

/-- Embeds the `update` method of `TemplatesService`: template lookup, the
approved-and-submitted immutability guard, name sanitization and conflict
check, language normalization, component validation, then the row update. -/
def updateTemplate (templates : List Template) (companyId : String) (id : Nat)
    (updateData : UpdateTemplateData) : Except String (List Template) :=
  match templates.find? (fun t => t.id == id && t.companyId == companyId) with
  | none => Except.error "Template not found"
  | some template =>
      if template.status = TemplateStatus.APPROVED
          && truthyStr template.whatsappTemplateId then
        Except.error "Cannot update approved template. Create a new version instead."
      else
        let nameStep : Except String (Option String) :=
          if truthyStr updateData.name then
            let sanitized := sanitizeTemplateName (updateData.name.getD "")
            if sanitized = "" then
              Except.error
                "Template name must contain only lowercase letters, numbers, or underscores"
            else
              match templates.find? (fun t =>
                  t.companyId == companyId && t.name == sanitized) with
              | some conflict =>
                  if conflict.id ≠ id then
                    Except.error "Another template already uses this name"
                  else Except.ok (some sanitized)
              | none => Except.ok (some sanitized)
          else Except.ok updateData.name
        match nameStep with
        | Except.error msg => Except.error msg
        | Except.ok newName =>
            let newLanguage :=
              if truthyStr updateData.language then
                some (normalizeLanguageCode (updateData.language.getD ""))
              else updateData.language
            let componentsStep : Except String (Option (List Component)) :=
              match updateData.components with
              | some cs =>
                  match normalizeAndValidateComponents cs with
                  | Except.error msg => Except.error msg
                  | Except.ok normalized => Except.ok (some normalized)
              | none => Except.ok none
            match componentsStep with
            | Except.error msg => Except.error msg
            | Except.ok newComponents =>
                Except.ok (templates.map (fun t =>
                  if t.id == id then
                    { t with
                      name := newName.getD t.name,
                      language := newLanguage.getD t.language,
                      category := updateData.category.getD t.category,
                      components := newComponents.getD t.components }
                  else t))

/-- Remote template record as consumed by `syncFromMeta` (rejection detail
restricted to the direct `rejection_reason` field). -/
structure RemoteTemplate where
  id : Option String := none
  name : String
  language : Option String := none
  category : String
  status : String
  components : List Component := []
  rejection_reason : Option String := none
deriving DecidableEq, Repr

/-- Embeds `mapMetaStatus`: approved/rejected map directly, everything else
(pending, in-appeal, unrecognized) maps to PENDING. -/
def mapMetaStatus (status : String) : TemplateStatus :=
  if strToUpper status = "APPROVED" then TemplateStatus.APPROVED
  else if strToUpper status = "REJECTED" then TemplateStatus.REJECTED
  else TemplateStatus.PENDING

/-- Embeds `mapMetaCategory`: marketing/authentication map directly,
everything else maps to UTILITY. -/
def mapMetaCategory (category : String) : TemplateCategory :=
  if strToUpper category = "MARKETING" then TemplateCategory.MARKETING
  else if strToUpper category = "AUTHENTICATION" then TemplateCategory.AUTHENTICATION
  else TemplateCategory.UTILITY

/-- Embeds `extractRejectionReason` on the modelled remote record: the
trimmed direct rejection reason when non-empty. -/
def extractRejectionReason (rt : RemoteTemplate) : Option String :=
  match rt.rejection_reason with
  | some s => if jsTrim s ≠ "" then some (jsTrim s) else none
  | none => none

/-- The field overwrite `syncFromMeta` applies to a matched local template
(Prisma `template.update` with the remote-derived payload). -/
def applySyncPayload (rt : RemoteTemplate) (t : Template) : Template :=
  let status := mapMetaStatus rt.status
  { t with
    name := rt.name,
    language := normalizeLanguageCode
      (if truthyStr rt.language then rt.language.getD "" else "en_US"),
    category := mapMetaCategory rt.category,
    status := status,
    components := rt.components,
    whatsappTemplateId := rt.id,
    rejectionReason :=
      if status = TemplateStatus.REJECTED then extractRejectionReason rt else none }

/-- Embeds one iteration of `syncFromMeta`'s loop: match an existing local
template first by remote template id (when truthy), then by (companyId,
name); overwrite the match with the remote payload, or create a new row. -/
def syncRemoteTemplate (companyId : String) (templates : List Template) (nextId : Nat)
    (rt : RemoteTemplate) : List Template × Nat :=
  let existingById : Option Template :=
    if truthyStr rt.id then
      templates.find? (fun t => t.whatsappTemplateId == rt.id)
    else none
  let existing : Option Template :=
    match existingById with
    | some t => some t
    | none => templates.find? (fun t => t.companyId == companyId && t.name == rt.name)
  match existing with
  | some e =>
      (templates.map (fun t => if t.id == e.id then applySyncPayload rt t else t), nextId)
  | none =>
      let base : Template :=
        { id := nextId, companyId := companyId, name := rt.name, language := "",
          category := TemplateCategory.UTILITY, components := [],
          status := TemplateStatus.DRAFT }
      (templates ++ [applySyncPayload rt base], nextId + 1)

/-- Embeds `syncFromMeta`'s loop over the fetched remote template list. -/
def syncFromMeta (companyId : String) (templates : List Template) (nextId : Nat)
    (remoteTemplates : List RemoteTemplate) : List Template × Nat :=
  remoteTemplates.foldl (fun acc rt => syncRemoteTemplate companyId acc.1 acc.2 rt)
    (templates, nextId)

/- ### Helper lemmas -/

/-- Folding `max` never goes below the initial accumulator. -/
theorem foldl_max_le_init (l : List Nat) (a : Nat) : a ≤ l.foldl max a := by
  induction l generalizing a with
  | nil => simp
  | cons x xs ih => exact le_trans (le_max_left a x) (ih (max a x))

/-- Every list member is bounded by the `max` fold. -/
theorem mem_le_foldl_max (l : List Nat) (a : Nat) : ∀ n ∈ l, n ≤ l.foldl max a := by
  induction l generalizing a with
  | nil => simp
  | cons x xs ih =>
      intro n hn
      rcases List.mem_cons.mp hn with h | h
      · subst h
        exact le_trans (le_max_right a n) (foldl_max_le_init xs (max a n))
      · exact ih (max a x) n h

/-- Characterization of the first-bad-index scan: it reports nothing iff
every index lies in `[1, 10]`. -/
theorem firstPlaceholderError_eq_none (l : List Nat) :
    firstPlaceholderError l = none ↔ ∀ n ∈ l, 1 ≤ n ∧ n ≤ 10 := by
  induction l with
  | nil => simp [firstPlaceholderError]
  | cons i rest ih =>
      simp only [firstPlaceholderError]
      by_cases h1 : i < 1
      · simp only [h1, if_true]
        constructor
        · intro h; cases h
        · intro h
          have := (h i (List.mem_cons_self i rest)).1
          omega
      · by_cases h2 : i > 10
        · simp only [h1, if_false, h2, if_true]
          constructor
          · intro h; cases h
          · intro h
            have := (h i (List.mem_cons_self i rest)).2
            omega
        · simp only [h1, if_false, h2, if_false, ih]
          constructor
          · intro h n hn
            rcases List.mem_cons.mp hn with he | he
            · subst he; omega
            · exact h n he
          · intro h n hn
            exact h n (List.mem_cons_of_mem i hn)

/- ### Claim C2 -/

/-- Claim C2: for every BODY text, placeholder validation succeeds iff the
set of numeric indices appearing as placeholder tokens is exactly
`[1, max]` with every index at most 10 — so an index below 1 or above 10
fails, any gap fails, and in particular a body with tokens 1 and 3 but not
2 fails while one with tokens 1 and 2 passes. -/
theorem C2_placeholder_validation (text : String) :
    (validatePlaceholderSequence text = Except.ok () ↔
      ((∀ n ∈ extractPlaceholders text.data, n ≤ 10) ∧
        ∀ n, n ∈ extractPlaceholders text.data ↔
          1 ≤ n ∧ n ≤ maxPlaceholder (extractPlaceholders text.data))) ∧
    validatePlaceholderSequence "Hi \x7b\x7b1\x7d\x7d and \x7b\x7b3\x7d\x7d" ≠ Except.ok () ∧
    validatePlaceholderSequence "Hi \x7b\x7b1\x7d\x7d and \x7b\x7b2\x7d\x7d" = Except.ok () := by
  refine ⟨?_, by decide, by decide⟩
  unfold validatePlaceholderSequence
  cases hf : firstPlaceholderError (extractPlaceholders text.data) with
  | some msg =>
      simp only [hf]
      constructor
      · intro h; cases h
      · rintro ⟨h10, hiff⟩
        have hnone : firstPlaceholderError (extractPlaceholders text.data) = none := by
          rw [firstPlaceholderError_eq_none]
          intro n hn
          exact ⟨((hiff n).1 hn).1, h10 n hn⟩
        rw [hf] at hnone
        cases hnone
  | none =>
      have hall : ∀ n ∈ extractPlaceholders text.data, 1 ≤ n ∧ n ≤ 10 :=
        (firstPlaceholderError_eq_none _).1 hf
      simp only [hf]
      by_cases he : (extractPlaceholders text.data).isEmpty
      · have hnil : extractPlaceholders text.data = [] := by
          simpa [List.isEmpty_iff] using he
        rw [hnil]
        simp [maxPlaceholder]
        omega
      · simp only [he, if_false]
        by_cases hgap :
            ((List.range (maxPlaceholder (extractPlaceholders text.data))).all
              (fun i => (extractPlaceholders text.data).contains (i + 1))) = true
        · simp only [hgap, if_true]
          constructor
          · intro _
            refine ⟨fun n hn => (hall n hn).2, fun n => ⟨fun hn => ?_, fun hn => ?_⟩⟩
            · exact ⟨(hall n hn).1, mem_le_foldl_max _ 0 n hn⟩
            · have hi : n - 1 ∈ List.range (maxPlaceholder (extractPlaceholders text.data)) := by
                rw [List.mem_range]; omega
              have := (List.all_eq_true.mp hgap) _ hi
              have hnn : n - 1 + 1 = n := by omega
              rw [hnn] at this
              simpa using this
          · intro _; rfl
        · simp only [hgap, if_false]
          constructor
          · intro h; cases h
          · rintro ⟨_, hiff⟩
            have : ((List.range (maxPlaceholder (extractPlaceholders text.data))).all
                (fun i => (extractPlaceholders text.data).contains (i + 1))) = true := by
              rw [List.all_eq_true]
              intro i hi
              rw [List.mem_range] at hi
              have : i + 1 ∈ extractPlaceholders text.data := (hiff (i + 1)).2 (by omega)
              simpa using this
            exact absurd this hgap

/- ### Spec-level predicates and dispatcher helper lemmas -/

/-- Spec-level statement that the dispatcher's connection gates pass for a
company: it exists, is connected, and has a truthy access token and phone
id. -/
def DispatchGatesOpen (db : DbState) (companyId : String) : Prop :=
  ∃ c, findCompany db companyId = some c ∧ c.whatsappConnected = true ∧
    truthyStr c.whatsappAccessToken = true ∧ truthyStr c.whatsappPhoneId = true

/-- Spec-level active-window sub-check, as the claim words it: a
Conversation for the key exists with a non-null last-message timestamp
strictly less than 24 hours before evaluation time. -/
def ActiveWindowSpec (db : DbState) (companyId : String) (contactId : Nat)
    (now : Int) : Prop :=
  ∃ conv ∈ db.conversations, conv.companyId = companyId ∧
    conv.contactId = contactId ∧
    ∃ t, conv.lastMessageAt = some t ∧ now - t < 24 * 60 * 60 * 1000

/-- Spec-level outbound-history sub-check, as the claim words it: a prior
Message with direction OUTBOUND and status in SENT/DELIVERED/READ. -/
def OutboundHistorySpec (db : DbState) (companyId : String) (contactId : Nat) : Prop :=
  ∃ m ∈ db.messages, m.companyId = companyId ∧ m.contactId = contactId ∧
    m.direction = Direction.OUTBOUND ∧
    (m.status = MessageStatus.SENT ∨ m.status = MessageStatus.DELIVERED ∨
      m.status = MessageStatus.READ)

/-- Schema invariant: at most one Conversation row per (companyId,
contactId) natural key. -/
def ConversationKeyUnique (db : DbState) : Prop :=
  ∀ a ∈ db.conversations, ∀ b ∈ db.conversations,
    a.companyId = b.companyId → a.contactId = b.contactId → a = b

/-- Finding in an appended list skips a prefix with no match. -/
theorem find?_append_of_none {α : Type} (p : α → Bool) (l1 l2 : List α)
    (h : l1.find? p = none) : (l1 ++ l2).find? p = l2.find? p := by
  induction l1 with
  | nil => simp
  | cons x xs ih =>
      rw [List.find?_cons] at h
      cases hp : p x with
      | true => rw [hp] at h; cases h
      | false =>
          rw [hp] at h
          simpa [List.find?_cons, hp] using ih h

/-- Embedded outbound-history check agrees with its spec-level reading. -/
theorem hasOutboundMessageHistory_iff (db : DbState) (cid : String) (ctid : Nat) :
    hasOutboundMessageHistory db cid ctid = true ↔ OutboundHistorySpec db cid ctid := by
  unfold hasOutboundMessageHistory OutboundHistorySpec
  rw [List.any_eq_true]
  constructor
  · rintro ⟨m, hm, hp⟩
    simp only [Bool.and_eq_true, Bool.or_eq_true, beq_iff_eq] at hp
    exact ⟨m, hm, hp.1.1.1, hp.1.1.2, hp.1.2, by tauto⟩
  · rintro ⟨m, hm, h1, h2, h3, h4⟩
    refine ⟨m, hm, ?_⟩
    simp only [Bool.and_eq_true, Bool.or_eq_true, beq_iff_eq]
    exact ⟨⟨⟨h1, h2⟩, h3⟩, by tauto⟩

/-- Embedded active-window check agrees with its spec-level reading, given
the schema's uniqueness of the Conversation natural key. -/
theorem hasActiveConversationWindow_iff (db : DbState) (cid : String) (ctid : Nat)
    (now : Int) (hu : ConversationKeyUnique db) :
    hasActiveConversationWindow db cid ctid now = true ↔
      ActiveWindowSpec db cid ctid now := by
  unfold hasActiveConversationWindow ActiveWindowSpec findConversation
  cases hf : db.conversations.find? (fun c => c.companyId == cid && c.contactId == ctid) with
  | none =>
      simp only []
      constructor
      · intro h; cases h
      · rintro ⟨conv, hconv, h1, h2, t, ht, hlt⟩
        have := List.find?_eq_none.mp hf conv hconv
        simp [h1, h2] at this
  | some conv =>
      have hp := List.find?_some hf
      have hmem := List.mem_of_find?_eq_some hf
      simp only [Bool.and_eq_true, beq_iff_eq] at hp
      obtain ⟨hp1, hp2⟩ := hp
      cases hl : conv.lastMessageAt with
      | none =>
          simp only [hl]
          constructor
          · intro h; cases h
          · rintro ⟨conv2, hmem2, h1, h2, t, ht, hlt⟩
            have he : conv2 = conv :=
              hu conv2 hmem2 conv hmem (h1.trans hp1.symm) (h2.trans hp2.symm)
            rw [he, hl] at ht
            cases ht
      | some t =>
          simp only [hl]
          constructor
          · intro h
            exact ⟨conv, hmem, hp1, hp2, t, hl, of_decide_eq_true h⟩
          · rintro ⟨conv2, hmem2, h1, h2, t2, ht2, hlt2⟩
            have he : conv2 = conv :=
              hu conv2 hmem2 conv hmem (h1.trans hp1.symm) (h2.trans hp2.symm)
            rw [he, hl] at ht2
            injection ht2 with he2
            subst he2
            exact decide_eq_true hlt2

/-- Creating a Contact changes no Conversation rows. -/
theorem findOrCreateContact_conversations (db : DbState) (cid phone : String) :
    ((findOrCreateContact db cid phone).2).conversations = db.conversations := by
  unfold findOrCreateContact
  cases findContact db cid phone <;> rfl

/-- Creating a Contact changes no Message rows. -/
theorem findOrCreateContact_messages (db : DbState) (cid phone : String) :
    ((findOrCreateContact db cid phone).2).messages = db.messages := by
  unfold findOrCreateContact
  cases findContact db cid phone <;> rfl

/-- Find-or-create preserves uniqueness of the Conversation natural key. -/
theorem findOrCreateConversation_unique (db : DbState) (cid : String) (ctid : Nat)
    (hu : ConversationKeyUnique db) :
    ConversationKeyUnique ((findOrCreateConversation db cid ctid).2) := by
  unfold findOrCreateConversation
  cases hf : findConversation db cid ctid with
  | some c => exact hu
  | none =>
      intro a ha b hb h1 h2
      unfold findConversation at hf
      have hnot := List.find?_eq_none.mp hf
      simp only [List.mem_append, List.mem_singleton] at ha hb
      rcases ha with ha | ha <;> rcases hb with hb | hb
      · exact hu a ha b hb h1 h2
      · exfalso
        have := hnot a ha
        rw [hb] at h1 h2
        simp [h1, h2] at this
      · exfalso
        have := hnot b hb
        rw [ha] at h1 h2
        simp [← h1, ← h2] at this
      · rw [ha, hb]

/- ### Claim C9 -/

/-- Claim C9 (implicit): a free-form send that is rejected by the
messaging-window policy is not atomic — the Contact and the OPEN
Conversation are created before the window policy is evaluated, so for a
recipient with no prior Contact the rejected send still leaves a new
Contact row and a new Conversation row behind. -/
theorem C9_window_reject_leaves_rows (db : DbState)
    (companyId phoneNumber message : String) (now : Int) (provider : ProviderResult)
    (hg : DispatchGatesOpen db companyId)
    (hv : isValidPhone (normalizePhoneNumber phoneNumber) = true)
    (hnc : findContact db companyId (normalizePhoneNumber phoneNumber) = none)
    (hfresh1 : ∀ conv ∈ db.conversations, conv.contactId ≠ db.nextId)
    (hfresh2 : ∀ m ∈ db.messages, m.contactId ≠ db.nextId) :
    sendTextMessage db companyId phoneNumber message now provider =
      (SendOutcome.windowClosed,
        { db with
          contacts := db.contacts ++
            [{ id := db.nextId, companyId := companyId,
               phone := normalizePhoneNumber phoneNumber }],
          conversations := db.conversations ++
            [{ id := db.nextId + 1, companyId := companyId, contactId := db.nextId,
               status := ConvStatus.OPEN }],
          nextId := db.nextId + 2 }) := by
  obtain ⟨company, hc, h1, h2, h3⟩ := hg
  have hconvnone : db.conversations.find?
      (fun c => c.companyId == companyId && c.contactId == db.nextId) = none := by
    apply List.find?_eq_none.mpr
    intro c hcmem
    simp [hfresh1 c hcmem]
  have hhist : hasOutboundMessageHistory
      { db with
        contacts := db.contacts ++
          [{ id := db.nextId, companyId := companyId,
             phone := normalizePhoneNumber phoneNumber }],
        conversations := db.conversations ++
          [{ id := db.nextId + 1, companyId := companyId, contactId := db.nextId,
             status := ConvStatus.OPEN }],
        nextId := db.nextId + 2 } companyId db.nextId = false := by
    unfold hasOutboundMessageHistory
    apply List.any_eq_false.mpr
    intro m hm
    simp only [] at hm
    simp [hfresh2 m hm]
  unfold sendTextMessage
  rw [hc]
  simp only [h1, h2, h3, hv, Bool.not_true, Bool.false_or, Bool.or_self, if_false,
    Bool.not_false, if_true]
  unfold findOrCreateContact
  rw [hnc]
  unfold findOrCreateConversation findConversation
  simp only []
  rw [hconvnone]
  simp only []
  unfold hasActiveConversationWindow findConversation
  simp only []
  rw [find?_append_of_none _ _ _ hconvnone]
  simp only [List.find?_cons, beq_self_eq_true, Bool.and_self, hhist]
  simp

/-- Witness for C9 at a concrete state: a fresh recipient, window-closed
rejection, and the created Contact/Conversation rows left behind. -/
theorem C9_window_reject_leaves_rows_witness :
    sendTextMessage
      { companies :=
          [{ id := "c1", whatsappConnected := true,
             whatsappAccessToken := some "t", whatsappPhoneId := some "p" }],
        contacts := [], conversations := [], messages := [], nextId := 0 }
      "c1" "1234567890" "hi" 0 (ProviderResult.ok (some "w")) =
      (SendOutcome.windowClosed,
        { companies :=
            [{ id := "c1", whatsappConnected := true,
               whatsappAccessToken := some "t", whatsappPhoneId := some "p" }],
          contacts := [{ id := 0, companyId := "c1", phone := "+1234567890" }],
          conversations :=
            [{ id := 1, companyId := "c1", contactId := 0,
               status := ConvStatus.OPEN }],
          messages := [], nextId := 2 }) :=
  C9_window_reject_leaves_rows _ "c1" "1234567890" "hi" 0 _
    ⟨{ id := "c1", whatsappConnected := true, whatsappAccessToken := some "t",
       whatsappPhoneId := some "p" }, by decide, by decide, by decide, by decide⟩
    (by decide) (by decide) (by simp) (by simp)

/- ### Claim C7 -/

/-- Claim C7: phone normalization strips everything but digits and `+`,
rewrites a leading zero with the default country code `+1`, prefixes a bare
`+` otherwise, and passes `+`-prefixed input through unchanged — with the
three concrete examples — and the dispatcher rejects any normalized phone
that does not match `+\d` with at least 10 digits before creating any
state. -/
theorem C7_phone_normalization (db : DbState)
    (companyId phoneNumber message : String) (now : Int) (provider : ProviderResult)
    (hv : isValidPhone (normalizePhoneNumber phoneNumber) = false) :
    (∀ s, normalizePhoneNumber s = normalizePhoneSpec s) ∧
    normalizePhoneNumber "0987654321" = "+1987654321" ∧
    normalizePhoneNumber "987-654-3210" = "+9876543210" ∧
    normalizePhoneNumber "+44987654321" = "+44987654321" ∧
    (sendTextMessage db companyId phoneNumber message now provider).2 = db ∧
    (DispatchGatesOpen db companyId →
      (sendTextMessage db companyId phoneNumber message now provider).1 =
        SendOutcome.invalidPhone) := by
  refine ⟨?_, by decide, by decide, by decide, ?_, ?_⟩
  · intro s
    unfold normalizePhoneNumber normalizePhoneSpec normalizePhoneChars
    cases hf : s.data.filter (fun c => c.isDigit || c == '+') with
    | nil => rfl
    | cons c rest =>
        by_cases h0 : c = '0'
        · subst h0; simp
        · by_cases hp : c = '+'
          · subst hp; simp
          · simp [h0, hp]
  all_goals {
    unfold sendTextMessage
    cases hc : findCompany db companyId with
    | none =>
        first
        | rfl
        | (rintro ⟨c2, hc2, _⟩; rw [hc] at hc2; cases hc2)
    | some company =>
        cases hb1 : (!company.whatsappConnected || !truthyStr company.whatsappAccessToken) with
        | true =>
            simp only [hb1, if_true]
            all_goals first
              | rfl
              | (rintro ⟨c2, hc2, hconn, htok, _⟩;
                 rw [hc] at hc2; injection hc2 with he; subst he;
                 simp [hconn, htok] at hb1)
        | false =>
            cases hb2 : (!truthyStr company.whatsappPhoneId) with
            | true =>
                simp only [hb1, hb2, if_false, if_true]
                all_goals first
                  | rfl
                  | (rintro ⟨c2, hc2, hconn, htok, hph⟩;
                     rw [hc] at hc2; injection hc2 with he; subst he;
                     simp [hph] at hb2)
            | false =>
                simp only [hb1, hb2, hv, Bool.not_false, if_false, if_true,
                  Bool.false_eq_true]
                all_goals first
                  | rfl
                  | trivial
                  | (intro _; first | rfl | trivial)
  }

/-- Witness for C7: a too-short phone is rejected with no state change. -/
theorem C7_phone_normalization_witness :
    isValidPhone (normalizePhoneNumber "123") = false ∧
    (sendTextMessage
      { companies :=
          [{ id := "c1", whatsappConnected := true,
             whatsappAccessToken := some "t", whatsappPhoneId := some "p" }],
        contacts := [], conversations := [], messages := [], nextId := 0 }
      "c1" "123" "hi" 0 (ProviderResult.ok (some "w"))).1 =
      SendOutcome.invalidPhone ∧
    (sendTextMessage
      { companies :=
          [{ id := "c1", whatsappConnected := true,
             whatsappAccessToken := some "t", whatsappPhoneId := some "p" }],
        contacts := [], conversations := [], messages := [], nextId := 0 }
      "c1" "123" "hi" 0 (ProviderResult.ok (some "w"))).2 =
      { companies :=
          [{ id := "c1", whatsappConnected := true,
             whatsappAccessToken := some "t", whatsappPhoneId := some "p" }],
        contacts := [], conversations := [], messages := [], nextId := 0 } :=
  ⟨by decide,
    (C7_phone_normalization _ "c1" "123" "hi" 0 _ (by decide)).2.2.2.2.2
      ⟨{ id := "c1", whatsappConnected := true, whatsappAccessToken := some "t",
         whatsappPhoneId := some "p" }, by decide, by decide, by decide, by decide⟩,
    (C7_phone_normalization _ "c1" "123" "hi" 0 _ (by decide)).2.2.2.2.1⟩

/-- Template sends are never gated by the window policy: no execution path
of the template dispatcher produces the window-closed outcome. -/
theorem sendTemplateMessage_ne_windowClosed (db : DbState)
    (cid phone tname : String) (now : Int) (provider : ProviderResult) :
    (sendTemplateMessage db cid phone tname now provider).1 ≠
      SendOutcome.windowClosed := by
  unfold sendTemplateMessage
  cases hc : findCompany db cid with
  | none => simp
  | some company =>
      cases hb1 : (!company.whatsappConnected || !truthyStr company.whatsappAccessToken) with
      | true => simp [hb1]
      | false =>
          cases hb2 : (!truthyStr company.whatsappPhoneId) with
          | true => simp [hb1, hb2]
          | false =>
              cases hb3 : isValidPhone (normalizePhoneNumber phone) with
              | false => simp [hb1, hb2, hb3]
              | true =>
                  cases provider with
                  | ok mid =>
                      cases htm : truthyStr mid <;> simp [hb1, hb2, hb3, htm]
                  | err m => simp [hb1, hb2, hb3]

/-- State after the dispatcher's find-or-create of Contact and Conversation
for a normalized phone — the state the window policy is evaluated on. -/
def windowStageDb (db : DbState) (companyId phone : String) : DbState :=
  (findOrCreateConversation (findOrCreateContact db companyId phone).2 companyId
    (findOrCreateContact db companyId phone).1.id).2

/-- Contact id resolved by the dispatcher's find-or-create for a normalized
phone. -/
def windowStageContactId (db : DbState) (companyId phone : String) : Nat :=
  (findOrCreateContact db companyId phone).1.id

/- ### Claim C1 -/

/-- Claim C1: a free-form text send that reaches the policy stage is
rejected with the window-closed outcome — before any provider call, leaving
exactly the find-or-create state — iff neither sub-check holds: no
Conversation for the key with a non-null last-message timestamp strictly
within 24 hours of evaluation time, and no prior OUTBOUND message with
status SENT, DELIVERED or READ; and template sends are never gated by this
policy. -/
theorem C1_window_policy_gate (db : DbState)
    (companyId phoneNumber message templateName : String) (now : Int)
    (provider : ProviderResult)
    (hg : DispatchGatesOpen db companyId)
    (hv : isValidPhone (normalizePhoneNumber phoneNumber) = true)
    (hu : ConversationKeyUnique db) :
    (((sendTextMessage db companyId phoneNumber message now provider).1 =
        SendOutcome.windowClosed) ↔
      (¬ ActiveWindowSpec (windowStageDb db companyId (normalizePhoneNumber phoneNumber))
          companyId (windowStageContactId db companyId (normalizePhoneNumber phoneNumber))
          now ∧
       ¬ OutboundHistorySpec (windowStageDb db companyId (normalizePhoneNumber phoneNumber))
          companyId
          (windowStageContactId db companyId (normalizePhoneNumber phoneNumber)))) ∧
    ((sendTextMessage db companyId phoneNumber message now provider).1 =
        SendOutcome.windowClosed →
      (sendTextMessage db companyId phoneNumber message now provider).2 =
        windowStageDb db companyId (normalizePhoneNumber phoneNumber)) ∧
    (sendTemplateMessage db companyId phoneNumber templateName now provider).1 ≠
      SendOutcome.windowClosed := by
  obtain ⟨company, hc, h1, h2, h3⟩ := hg
  have hu2 : ConversationKeyUnique (windowStageDb db companyId (normalizePhoneNumber phoneNumber)) := by
    have hu1 : ConversationKeyUnique
        (findOrCreateContact db companyId (normalizePhoneNumber phoneNumber)).2 := by
      intro a ha b hb
      rw [findOrCreateContact_conversations] at ha hb
      exact hu a ha b hb
    exact findOrCreateConversation_unique _ _ _ hu1
  have hkey : (((sendTextMessage db companyId phoneNumber message now provider).1 =
      SendOutcome.windowClosed) ↔
        (hasActiveConversationWindow
            (windowStageDb db companyId (normalizePhoneNumber phoneNumber)) companyId
            (windowStageContactId db companyId (normalizePhoneNumber phoneNumber)) now
          = false ∧
         hasOutboundMessageHistory
            (windowStageDb db companyId (normalizePhoneNumber phoneNumber)) companyId
            (windowStageContactId db companyId (normalizePhoneNumber phoneNumber))
          = false)) ∧
      ((sendTextMessage db companyId phoneNumber message now provider).1 =
          SendOutcome.windowClosed →
        (sendTextMessage db companyId phoneNumber message now provider).2 =
          windowStageDb db companyId (normalizePhoneNumber phoneNumber)) := by
    unfold sendTextMessage windowStageDb windowStageContactId
    rw [hc]
    simp only [h1, h2, h3, hv, Bool.not_true, Bool.false_or, Bool.or_self, if_false,
      Bool.not_false, if_true]
    cases hA : hasActiveConversationWindow
        (findOrCreateConversation
          (findOrCreateContact db companyId (normalizePhoneNumber phoneNumber)).2 companyId
          (findOrCreateContact db companyId (normalizePhoneNumber phoneNumber)).1.id).2
        companyId
        (findOrCreateContact db companyId (normalizePhoneNumber phoneNumber)).1.id now with
    | false =>
        cases hB : hasOutboundMessageHistory
            (findOrCreateConversation
              (findOrCreateContact db companyId (normalizePhoneNumber phoneNumber)).2 companyId
              (findOrCreateContact db companyId (normalizePhoneNumber phoneNumber)).1.id).2
            companyId
            (findOrCreateContact db companyId (normalizePhoneNumber phoneNumber)).1.id with
        | false => simp [hA, hB]
        | true =>
            cases provider with
            | ok mid => cases htm : truthyStr mid <;> simp [hA, hB, htm]
            | err m => simp [hA, hB]
    | true =>
        cases provider with
        | ok mid => cases htm : truthyStr mid <;> simp [hA, htm]
        | err m => simp [hA]
  refine ⟨?_, hkey.2, sendTemplateMessage_ne_windowClosed db companyId phoneNumber
    templateName now provider⟩
  rw [hkey.1]
  constructor
  · rintro ⟨ha, hb⟩
    constructor
    · intro hspec
      have := (hasActiveConversationWindow_iff _ _ _ _ hu2).2 hspec
      rw [ha] at this
      cases this
    · intro hspec
      have := (hasOutboundMessageHistory_iff _ _ _).2 hspec
      rw [hb] at this
      cases this
  · rintro ⟨ha, hb⟩
    constructor
    · cases hx : hasActiveConversationWindow
          (windowStageDb db companyId (normalizePhoneNumber phoneNumber)) companyId
          (windowStageContactId db companyId (normalizePhoneNumber phoneNumber)) now with
      | false => rfl
      | true => exact absurd ((hasActiveConversationWindow_iff _ _ _ _ hu2).1 hx) ha
    · cases hx : hasOutboundMessageHistory
          (windowStageDb db companyId (normalizePhoneNumber phoneNumber)) companyId
          (windowStageContactId db companyId (normalizePhoneNumber phoneNumber)) with
      | false => rfl
      | true => exact absurd ((hasOutboundMessageHistory_iff _ _ _).1 hx) hb

/-- Witness for C1: on an empty state the send is rejected as
window-closed, and via the theorem neither sub-check holds there. -/
theorem C1_window_policy_gate_witness :
    ¬ ActiveWindowSpec
        (windowStageDb
          { companies :=
              [{ id := "c1", whatsappConnected := true,
                 whatsappAccessToken := some "t", whatsappPhoneId := some "p" }],
            contacts := [], conversations := [], messages := [], nextId := 0 }
          "c1" (normalizePhoneNumber "1234567890"))
        "c1"
        (windowStageContactId
          { companies :=
              [{ id := "c1", whatsappConnected := true,
                 whatsappAccessToken := some "t", whatsappPhoneId := some "p" }],
            contacts := [], conversations := [], messages := [], nextId := 0 }
          "c1" (normalizePhoneNumber "1234567890")) 0 ∧
    ¬ OutboundHistorySpec
        (windowStageDb
          { companies :=
              [{ id := "c1", whatsappConnected := true,
                 whatsappAccessToken := some "t", whatsappPhoneId := some "p" }],
            contacts := [], conversations := [], messages := [], nextId := 0 }
          "c1" (normalizePhoneNumber "1234567890"))
        "c1"
        (windowStageContactId
          { companies :=
              [{ id := "c1", whatsappConnected := true,
                 whatsappAccessToken := some "t", whatsappPhoneId := some "p" }],
            contacts := [], conversations := [], messages := [], nextId := 0 }
          "c1" (normalizePhoneNumber "1234567890")) :=
  (C1_window_policy_gate _ "c1" "1234567890" "hi" "tname" 0
      (ProviderResult.ok (some "w"))
      ⟨{ id := "c1", whatsappConnected := true, whatsappAccessToken := some "t",
         whatsappPhoneId := some "p" }, by decide, by decide, by decide, by decide⟩
      (by decide) (by intro a ha; simp at ha)).1.mp (by decide)

/-- Conversation row resolved by the dispatcher's find-or-create for a
normalized phone. -/
def windowStageConversation (db : DbState) (companyId phone : String) : Conversation :=
  (findOrCreateConversation (findOrCreateContact db companyId phone).2 companyId
    (findOrCreateContact db companyId phone).1.id).1

/- ### Claim C6 -/

/-- Claim C6: every send attempt that reaches the provider call persists
exactly one Message row — on a success response carrying a non-empty remote
id a SENT row plus the Conversation last-message-at update; on a provider
error a FAILED row carrying the provider error text; and on a success
response missing (or empty) the remote id a FAILED row with the fallback
text and no Conversation update, even though the provider reported HTTP
success. -/
theorem C6_provider_persistence (db : DbState)
    (companyId phoneNumber message : String) (now : Int) (provider : ProviderResult)
    (hg : DispatchGatesOpen db companyId)
    (hv : isValidPhone (normalizePhoneNumber phoneNumber) = true)
    (hw : hasActiveConversationWindow
        (windowStageDb db companyId (normalizePhoneNumber phoneNumber)) companyId
        (windowStageContactId db companyId (normalizePhoneNumber phoneNumber)) now = true ∨
      hasOutboundMessageHistory
        (windowStageDb db companyId (normalizePhoneNumber phoneNumber)) companyId
        (windowStageContactId db companyId (normalizePhoneNumber phoneNumber)) = true) :
    (((sendTextMessage db companyId phoneNumber message now provider).2).messages.length =
      (windowStageDb db companyId (normalizePhoneNumber phoneNumber)).messages.length + 1) ∧
    (∀ wid, wid ≠ "" → provider = ProviderResult.ok (some wid) →
      (sendTextMessage db companyId phoneNumber message now provider).1 =
        SendOutcome.sent wid ∧
      ((sendTextMessage db companyId phoneNumber message now provider).2).messages =
        (windowStageDb db companyId (normalizePhoneNumber phoneNumber)).messages ++
          [{ companyId := companyId,
             contactId := windowStageContactId db companyId (normalizePhoneNumber phoneNumber),
             conversationId :=
               (windowStageConversation db companyId (normalizePhoneNumber phoneNumber)).id,
             whatsappMessageId := some wid, type := MessageType.TEXT,
             direction := Direction.OUTBOUND, content := message,
             status := MessageStatus.SENT, sentAt := some now }] ∧
      ∀ c ∈ ((sendTextMessage db companyId phoneNumber message now provider).2).conversations,
        c.id = (windowStageConversation db companyId (normalizePhoneNumber phoneNumber)).id →
          c.lastMessageAt = some now) ∧
    (provider = ProviderResult.ok none ∨ provider = ProviderResult.ok (some "") →
      (sendTextMessage db companyId phoneNumber message now provider).1 =
        SendOutcome.sendFailed "Failed to send message" ∧
      ((sendTextMessage db companyId phoneNumber message now provider).2).messages =
        (windowStageDb db companyId (normalizePhoneNumber phoneNumber)).messages ++
          [{ companyId := companyId,
             contactId := windowStageContactId db companyId (normalizePhoneNumber phoneNumber),
             conversationId :=
               (windowStageConversation db companyId (normalizePhoneNumber phoneNumber)).id,
             type := MessageType.TEXT, direction := Direction.OUTBOUND,
             content := message, status := MessageStatus.FAILED,
             error := some "Failed to send message", sentAt := some now }] ∧
      ((sendTextMessage db companyId phoneNumber message now provider).2).conversations =
        (windowStageDb db companyId (normalizePhoneNumber phoneNumber)).conversations) ∧
    (∀ em, provider = ProviderResult.err em →
      (sendTextMessage db companyId phoneNumber message now provider).1 =
        SendOutcome.sendFailed (em.getD "Failed to send message") ∧
      ((sendTextMessage db companyId phoneNumber message now provider).2).messages =
        (windowStageDb db companyId (normalizePhoneNumber phoneNumber)).messages ++
          [{ companyId := companyId,
             contactId := windowStageContactId db companyId (normalizePhoneNumber phoneNumber),
             conversationId :=
               (windowStageConversation db companyId (normalizePhoneNumber phoneNumber)).id,
             type := MessageType.TEXT, direction := Direction.OUTBOUND,
             content := message, status := MessageStatus.FAILED,
             error := some (em.getD "Failed to send message"), sentAt := some now }]) := by
  obtain ⟨company, hc, h1, h2, h3⟩ := hg
  unfold windowStageDb windowStageContactId at hw
  unfold windowStageDb windowStageContactId windowStageConversation
  unfold sendTextMessage
  rw [hc]
  simp only [h1, h2, h3, hv, Bool.not_true, Bool.false_or, Bool.or_self, if_false,
    Bool.not_false, if_true]
  have hcond : ∀ (x : Bool), (!hasActiveConversationWindow
      (findOrCreateConversation
        (findOrCreateContact db companyId (normalizePhoneNumber phoneNumber)).2 companyId
        (findOrCreateContact db companyId (normalizePhoneNumber phoneNumber)).1.id).2
      companyId
      (findOrCreateContact db companyId (normalizePhoneNumber phoneNumber)).1.id now &&
      !hasOutboundMessageHistory
      (findOrCreateConversation
        (findOrCreateContact db companyId (normalizePhoneNumber phoneNumber)).2 companyId
        (findOrCreateContact db companyId (normalizePhoneNumber phoneNumber)).1.id).2
      companyId
      (findOrCreateContact db companyId (normalizePhoneNumber phoneNumber)).1.id) = false := by
    intro _
    rcases hw with hw | hw <;> simp [hw]
  rw [hcond true]
  simp only [Bool.false_eq_true, if_false]
  refine ⟨?_, ?_, ?_, ?_⟩
  · -- exactly one appended row, for every provider outcome
    cases provider with
    | ok mid =>
        cases htm : truthyStr mid <;>
          simp [htm, appendFailedMessage, updateConversationLastMessage]
    | err m => simp [appendFailedMessage]
  · -- success with a non-empty remote id
    intro wid hne hpe
    subst hpe
    have htm : truthyStr (some wid) = true := by
      simp [truthyStr, hne]
    simp only [htm, if_true]
    refine ⟨rfl, rfl, ?_⟩
    intro c hcmem hcid
    unfold updateConversationLastMessage at hcmem
    simp only [List.mem_map] at hcmem
    obtain ⟨x, hx, rfl⟩ := hcmem
    by_cases hxid : (x.id ==
        (findOrCreateConversation
          (findOrCreateContact db companyId (normalizePhoneNumber phoneNumber)).2 companyId
          (findOrCreateContact db companyId (normalizePhoneNumber phoneNumber)).1.id).1.id)
        = true
    · simp [hxid]
    · rw [if_neg hxid] at hcid ⊢
      exact absurd (by simp [hcid]) hxid
  · -- HTTP success without a usable remote id
    rintro (rfl | rfl) <;> exact ⟨rfl, rfl, rfl⟩
  · -- provider error
    intro em hpe
    subst hpe
    exact ⟨rfl, rfl⟩

/-- Witness for C6: with outbound history present, a success response with
remote id yields the sent outcome and exactly one appended row. -/
theorem C6_provider_persistence_witness :
    (sendTextMessage
      { companies :=
          [{ id := "c1", whatsappConnected := true,
             whatsappAccessToken := some "t", whatsappPhoneId := some "p" }],
        contacts := [{ id := 0, companyId := "c1", phone := "+1234567890" }],
        conversations := [],
        messages :=
          [{ companyId := "c1", contactId := 0, conversationId := 0,
             whatsappMessageId := some "w0", type := MessageType.TEXT,
             direction := Direction.OUTBOUND, content := "x",
             status := MessageStatus.SENT }],
        nextId := 1 }
      "c1" "1234567890" "hi" 5 (ProviderResult.ok (some "wamid"))).1 =
      SendOutcome.sent "wamid" ∧
    ((sendTextMessage
      { companies :=
          [{ id := "c1", whatsappConnected := true,
             whatsappAccessToken := some "t", whatsappPhoneId := some "p" }],
        contacts := [{ id := 0, companyId := "c1", phone := "+1234567890" }],
        conversations := [],
        messages :=
          [{ companyId := "c1", contactId := 0, conversationId := 0,
             whatsappMessageId := some "w0", type := MessageType.TEXT,
             direction := Direction.OUTBOUND, content := "x",
             status := MessageStatus.SENT }],
        nextId := 1 }
      "c1" "1234567890" "hi" 5 (ProviderResult.ok (some "wamid"))).2).messages.length =
      (windowStageDb
        { companies :=
            [{ id := "c1", whatsappConnected := true,
               whatsappAccessToken := some "t", whatsappPhoneId := some "p" }],
          contacts := [{ id := 0, companyId := "c1", phone := "+1234567890" }],
          conversations := [],
          messages :=
            [{ companyId := "c1", contactId := 0, conversationId := 0,
               whatsappMessageId := some "w0", type := MessageType.TEXT,
               direction := Direction.OUTBOUND, content := "x",
               status := MessageStatus.SENT }],
          nextId := 1 }
        "c1" (normalizePhoneNumber "1234567890")).messages.length + 1 :=
  ⟨((C6_provider_persistence _ "c1" "1234567890" "hi" 5 _
      ⟨{ id := "c1", whatsappConnected := true, whatsappAccessToken := some "t",
         whatsappPhoneId := some "p" }, by decide, by decide, by decide, by decide⟩
      (by decide) (Or.inr (by decide))).2.1 "wamid" (by decide) rfl).1,
    (C6_provider_persistence _ "c1" "1234567890" "hi" 5 _
      ⟨{ id := "c1", whatsappConnected := true, whatsappAccessToken := some "t",
         whatsappPhoneId := some "p" }, by decide, by decide, by decide, by decide⟩
      (by decide) (Or.inr (by decide))).1⟩

/- ### Claim C3 -/

/-- Counterexample to C3 as stated: a webhook "sent" event moves a READ
message backwards to SENT, and a "delivered" event moves a FAILED message
out of FAILED to DELIVERED — the status update is an unconditional
overwrite, not a monotone transition. -/
theorem C3_counterexample :
    ((processStatusUpdates "c1" [{ id := "wamid1", status := "sent" }] 0
        { companies := [], contacts := [], conversations := [],
          messages :=
            [{ companyId := "c1", contactId := 0, conversationId := 0,
               whatsappMessageId := some "wamid1", type := MessageType.TEXT,
               direction := Direction.OUTBOUND, content := "hi",
               status := MessageStatus.READ }],
          nextId := 0 }).messages.map Message.status = [MessageStatus.SENT]) ∧
    ((processStatusUpdates "c1" [{ id := "wamid2", status := "delivered" }] 0
        { companies := [], contacts := [], conversations := [],
          messages :=
            [{ companyId := "c1", contactId := 0, conversationId := 0,
               whatsappMessageId := some "wamid2", type := MessageType.TEXT,
               direction := Direction.OUTBOUND, content := "hi",
               status := MessageStatus.FAILED }],
          nextId := 0 }).messages.map Message.status = [MessageStatus.DELIVERED]) := by
  constructor <;> decide

/-- Amended C3: a webhook status event overwrites the status of every
matched Message with the mapped event status unconditionally — regardless
of the prior status, so transitions are not monotonic and FAILED is not
terminal — while unmatched Messages are untouched. -/
theorem C3_status_overwrite (companyId : String) (ev : StatusEvent) (now : Int)
    (db : DbState) :
    ((processStatusUpdates companyId [ev] now db).messages =
      db.messages.map (applyStatusUpdate companyId ev now)) ∧
    (∀ m, matchesStatusEvent companyId ev m = true →
      (applyStatusUpdate companyId ev now m).status = mapWhatsAppStatus ev.status) ∧
    (∀ m, matchesStatusEvent companyId ev m = false →
      applyStatusUpdate companyId ev now m = m) := by
  refine ⟨?_, ?_, ?_⟩
  · simp [processStatusUpdates]
  · intro m hm
    simp [applyStatusUpdate, hm]
  · intro m hm
    simp [applyStatusUpdate, hm]

/-- Witness for the amended C3 at a concrete READ message and "sent"
event. -/
theorem C3_status_overwrite_witness :
    (applyStatusUpdate "c1" { id := "wamid1", status := "sent" } 0
      { companyId := "c1", contactId := 0, conversationId := 0,
        whatsappMessageId := some "wamid1", type := MessageType.TEXT,
        direction := Direction.OUTBOUND, content := "hi",
        status := MessageStatus.READ }).status =
      mapWhatsAppStatus "sent" :=
  (C3_status_overwrite "c1" { id := "wamid1", status := "sent" } 0
      { companies := [], contacts := [], conversations := [], messages := [],
        nextId := 0 }).2.1
    { companyId := "c1", contactId := 0, conversationId := 0,
      whatsappMessageId := some "wamid1", type := MessageType.TEXT,
      direction := Direction.OUTBOUND, content := "hi",
      status := MessageStatus.READ }
    (by decide)

/- ### Claim C10 -/

/-- Claim C10 (implicit): a status string outside sent/delivered/read/failed
maps to SENT by default, so a webhook event carrying it unconditionally
overwrites every matched Message's status to SENT instead of being ignored
or rejected. -/
theorem C10_unknown_status_maps_to_sent (s : String)
    (h1 : s ≠ "sent") (h2 : s ≠ "delivered") (h3 : s ≠ "read") (h4 : s ≠ "failed") :
    mapWhatsAppStatus s = MessageStatus.SENT ∧
    ∀ (companyId : String) (ev : StatusEvent) (now : Int) (db : DbState),
      ev.status = s →
      (processStatusUpdates companyId [ev] now db).messages =
        db.messages.map (fun m =>
          if matchesStatusEvent companyId ev m then
            { m with status := MessageStatus.SENT }
          else m) := by
  have hmap : mapWhatsAppStatus s = MessageStatus.SENT := by
    simp [mapWhatsAppStatus, h1, h2, h3, h4]
  refine ⟨hmap, ?_⟩
  intro companyId ev now db hev
  simp only [processStatusUpdates, List.foldl_cons, List.foldl_nil]
  apply List.map_congr_left
  intro m _
  simp [applyStatusUpdate, hev, h2, h3, h4, hmap]

/-- Witness for C10 at the status string "warned". -/
theorem C10_unknown_status_maps_to_sent_witness :
    mapWhatsAppStatus "warned" = MessageStatus.SENT ∧
    (processStatusUpdates "c1" [{ id := "w1", status := "warned" }] 0
      { companies := [], contacts := [], conversations := [],
        messages :=
          [{ companyId := "c1", contactId := 0, conversationId := 0,
             whatsappMessageId := some "w1", type := MessageType.TEXT,
             direction := Direction.OUTBOUND, content := "hi",
             status := MessageStatus.READ }],
        nextId := 0 }).messages =
      [{ companyId := "c1", contactId := 0, conversationId := 0,
         whatsappMessageId := some "w1", type := MessageType.TEXT,
         direction := Direction.OUTBOUND, content := "hi",
         status := MessageStatus.SENT }] := by
  have h := C10_unknown_status_maps_to_sent "warned"
    (by decide) (by decide) (by decide) (by decide)
  refine ⟨h.1, ?_⟩
  rw [h.2 "c1" { id := "w1", status := "warned" } 0 _ rfl]
  decide

/- ### Claim C4 -/

/-- Filtering out empty strings leaves no empty strings to find. -/
theorem filter_ne_empty_any_empty (l : List String) :
    ((l.filter (fun s => s ≠ "")).any (fun s => s = "")) = false := by
  rw [List.any_eq_false]
  intro x hx
  rw [List.mem_filter] at hx
  simpa using hx.2

/-- Counterexample to C4 as stated: a BODY with one placeholder and the
sample array `["", "x"]` — which contains an entry that is empty after
trimming — passes validation (the code silently filters empty samples
before the length check), storing only the surviving sample. -/
theorem C4_counterexample :
    normalizeAndValidateComponents
      [{ type := "BODY", text := some "Hi \x7b\x7b1\x7d\x7d",
         «example» := some { body_text := some (BodyTextVal.flat ["", "x"]) } }]
      = Except.ok
        [{ type := "BODY", text := some "Hi \x7b\x7b1\x7d\x7d",
           «example» := some { body_text := some (BodyTextVal.nested [["x"]]) } }] := by
  decide

/-- Amended C4: for a BODY with k ≥ 1 placeholders, validation requires
that at least k samples survive trimming and the discarding of empty
entries — failing otherwise — and stores exactly the surviving samples as a
nested array-of-one; when the BODY has no placeholders, any stale body_text
example payload is stripped. -/
theorem C4_body_sample_validation (bt : String) (samples : List String)
    (hne : jsTrim bt ≠ "") (hlen : (jsTrim bt).length ≤ 1024)
    (hval : validatePlaceholderSequence (jsTrim bt) = Except.ok ())
    (hk : (getPlaceholderIndexes (jsTrim bt)).length > 0) :
    (((samples.map jsTrim).filter (fun s => s ≠ "")).length <
        (getPlaceholderIndexes (jsTrim bt)).length →
      normalizeAndValidateComponents
        [{ type := "BODY", text := some bt,
           «example» := some { body_text := some (BodyTextVal.flat samples) } }] =
        Except.error
          "Provide sample values for every body placeholder (\x7b\x7b1\x7d\x7d, \x7b\x7b2\x7d\x7d, ...).") ∧
    ((getPlaceholderIndexes (jsTrim bt)).length ≤
        ((samples.map jsTrim).filter (fun s => s ≠ "")).length →
      normalizeAndValidateComponents
        [{ type := "BODY", text := some bt,
           «example» := some { body_text := some (BodyTextVal.flat samples) } }] =
        Except.ok
          [{ type := "BODY", text := some bt,
             «example» := some
               { body_text := some
                   (BodyTextVal.nested [(samples.map jsTrim).filter (fun s => s ≠ "")]) } }]) ∧
    (∀ (bt2 : String) (ex2 : CompExample),
      jsTrim bt2 ≠ "" → (jsTrim bt2).length ≤ 1024 →
      validatePlaceholderSequence (jsTrim bt2) = Except.ok () →
      (getPlaceholderIndexes (jsTrim bt2)).length = 0 →
      normalizeAndValidateComponents
        [{ type := "BODY", text := some bt2, «example» := some ex2 }] =
        Except.ok
          [{ type := "BODY", text := some bt2,
             «example» := some { ex2 with body_text := none } }]) := by
  have hgt : ¬((jsTrim bt).length > 1024) := by omega
  have hupper : strToUpper "BODY" = "BODY" := by decide
  refine ⟨?_, ?_, ?_⟩
  · intro hlt
    simp only [decide_not] at hlt
    unfold normalizeAndValidateComponents
    simp only [List.isEmpty_cons, List.map_cons, List.map_nil, normalizeComponent,
      List.find?_cons, hupper]
    simp [hne, hgt, hval, hk, exampleSourceOf, decide_not, hlt]
  · intro hge
    have hlt : ¬(((samples.map jsTrim).filter (fun s => !(s = ""))).length <
        (getPlaceholderIndexes (jsTrim bt)).length) := by
      simp only [decide_not] at hge ⊢
      omega
    unfold normalizeAndValidateComponents
    simp only [List.isEmpty_cons, List.map_cons, List.map_nil, normalizeComponent,
      List.find?_cons, hupper]
    simp [hne, hgt, hval, hk, exampleSourceOf, decide_not, hlt,
      filter_ne_empty_any_empty, replaceFirst]
  · intro bt2 ex2 hne2 hlen2 hval2 hk0
    have hgt2 : ¬((jsTrim bt2).length > 1024) := by omega
    have hk0' : ¬((getPlaceholderIndexes (jsTrim bt2)).length > 0) := by omega
    unfold normalizeAndValidateComponents
    simp only [List.isEmpty_cons, List.map_cons, List.map_nil, normalizeComponent,
      List.find?_cons, hupper]
    simp [hne2, hgt2, hval2, hk0', replaceFirst]

/-- Witness for the amended C4: one placeholder, one valid sample, stored
nested-once. -/
theorem C4_body_sample_validation_witness :
    normalizeAndValidateComponents
      [{ type := "BODY", text := some "Hello \x7b\x7b1\x7d\x7d",
         «example» := some { body_text := some (BodyTextVal.flat ["Sam"]) } }] =
      Except.ok
        [{ type := "BODY", text := some "Hello \x7b\x7b1\x7d\x7d",
           «example» := some { body_text := some (BodyTextVal.nested [["Sam"]]) } }] :=
  (C4_body_sample_validation "Hello \x7b\x7b1\x7d\x7d" ["Sam"] (by decide) (by decide)
    (by decide) (by decide)).2.1 (by decide)

/- ### Claim C5 -/

/-- Claim C5: for a template with one BODY placeholder and one matching
non-empty sample, normalizing the components and then building the provider
payload emits the body example as `body_text` nested exactly once
(`[[sample]]`), while header placeholder samples are emitted as a flat
`header_text` array. -/
theorem C5_round_trip (bt s ht h : String)
    (hbt1 : getPlaceholderIndexes (jsTrim bt) = [1])
    (hbne : jsTrim bt ≠ "") (hblen : (jsTrim bt).length ≤ 1024)
    (hbval : validatePlaceholderSequence (jsTrim bt) = Except.ok ())
    (hs : jsTrim s = s) (hsne : s ≠ "")
    (hht1 : getPlaceholderIndexes ht = [1])
    (hhtne : jsTrim ht ≠ "") (hhlen : (jsTrim ht).length ≤ 60)
    (hh : jsTrim h = h) (hhne : h ≠ "") :
    normalizeAndValidateComponents
      [{ type := "HEADER", text := some ht,
         «example» := some { header_text := some [h] } },
       { type := "BODY", text := some bt,
         «example» := some { body_text := some (BodyTextVal.flat [s]) } }] =
      Except.ok
        [{ type := "HEADER", format := some "TEXT", text := some ht,
           «example» := some { header_text := some [h] } },
         { type := "BODY", text := some bt,
           «example» := some { body_text := some (BodyTextVal.nested [[s]]) } }] ∧
    buildMetaComponents
      [{ type := "HEADER", format := some "TEXT", text := some ht,
         «example» := some { header_text := some [h] } },
       { type := "BODY", text := some bt,
         «example» := some { body_text := some (BodyTextVal.nested [[s]]) } }] =
      [{ type := "HEADER", format := some "TEXT", text := some ht,
         «example» := some { header_text := some [h] } },
       { type := "BODY", text := some bt,
         «example» := some { body_text := some [[s]] } }] := by
  have hbtne : bt ≠ "" := fun he => hbne (by rw [he]; decide)
  have hhtraw : ht ≠ "" := fun he => hhtne (by rw [he]; decide)
  have hgt : ¬((jsTrim bt).length > 1024) := by omega
  have hhgt : ¬((jsTrim ht).length > 60) := by omega
  have hupperB : strToUpper "BODY" = "BODY" := by decide
  have hupperH : strToUpper "HEADER" = "HEADER" := by decide
  constructor
  · unfold normalizeAndValidateComponents
    simp only [List.isEmpty_cons, List.map_cons, List.map_nil, normalizeComponent,
      List.find?_cons, hupperB, hupperH]
    simp [hbne, hgt, hbval, hbt1, exampleSourceOf, hs, hsne, replaceFirst,
      truthyStr, hhtraw, hhtne, hhgt, hht1, hh, hhne]
  · simp [buildMetaComponents, buildMetaComponent, hbtne, hhtraw]

/-- Witness for C5 at concrete template text and samples. -/
theorem C5_round_trip_witness :
    normalizeAndValidateComponents
      [{ type := "HEADER", text := some "Hello \x7b\x7b1\x7d\x7d",
         «example» := some { header_text := some ["Ann"] } },
       { type := "BODY", text := some "Hi \x7b\x7b1\x7d\x7d, welcome!",
         «example» := some { body_text := some (BodyTextVal.flat ["Sam"]) } }] =
      Except.ok
        [{ type := "HEADER", format := some "TEXT", text := some "Hello \x7b\x7b1\x7d\x7d",
           «example» := some { header_text := some ["Ann"] } },
         { type := "BODY", text := some "Hi \x7b\x7b1\x7d\x7d, welcome!",
           «example» := some { body_text := some (BodyTextVal.nested [["Sam"]]) } }] ∧
    buildMetaComponents
      [{ type := "HEADER", format := some "TEXT", text := some "Hello \x7b\x7b1\x7d\x7d",
         «example» := some { header_text := some ["Ann"] } },
       { type := "BODY", text := some "Hi \x7b\x7b1\x7d\x7d, welcome!",
         «example» := some { body_text := some (BodyTextVal.nested [["Sam"]]) } }] =
      [{ type := "HEADER", format := some "TEXT", text := some "Hello \x7b\x7b1\x7d\x7d",
         «example» := some { header_text := some ["Ann"] } },
       { type := "BODY", text := some "Hi \x7b\x7b1\x7d\x7d, welcome!",
         «example» := some { body_text := some [["Sam"]] } }] :=
  C5_round_trip "Hi \x7b\x7b1\x7d\x7d, welcome!" "Sam" "Hello \x7b\x7b1\x7d\x7d" "Ann"
    (by decide) (by decide) (by decide) (by decide) (by decide) (by decide)
    (by decide) (by decide) (by decide) (by decide) (by decide)

/- ### Claim C8 -/

/-- Counterexample to C8 as stated: a local template with status APPROVED
and a truthy remote id is mutated by the sync path — a remote record
matched by the same remote id but with category MARKETING overwrites the
stored UTILITY category (and would likewise overwrite name, language,
components and status). -/
theorem C8_counterexample :
    ({ id := 0, companyId := "c1", name := "welcome", language := "en",
       category := TemplateCategory.UTILITY, components := [],
       status := TemplateStatus.APPROVED,
       whatsappTemplateId := some "123" } : Template).status =
        TemplateStatus.APPROVED ∧
    truthyStr (some "123") = true ∧
    (syncRemoteTemplate "c1"
      [{ id := 0, companyId := "c1", name := "welcome", language := "en",
         category := TemplateCategory.UTILITY, components := [],
         status := TemplateStatus.APPROVED, whatsappTemplateId := some "123" }] 1
      { id := some "123", name := "welcome", language := some "en",
        category := "MARKETING", status := "APPROVED", components := [],
        rejection_reason := none }).1 =
      [{ id := 0, companyId := "c1", name := "welcome", language := "en",
         category := TemplateCategory.MARKETING, components := [],
         status := TemplateStatus.APPROVED, whatsappTemplateId := some "123" }] := by
  refine ⟨rfl, by decide, by decide⟩

/-- Amended C8: the user-facing update endpoint does reject any
modification of a template with status APPROVED and a truthy remote
template id; but `syncFromMeta` overwrites the stored fields (name,
language, category, components, status, rejection reason) of a matched
local template with the remote payload unconditionally — including for
approved-and-submitted templates. -/
theorem C8_approved_immutability (templates : List Template) (companyId : String)
    (id : Nat) (updateData : UpdateTemplateData) (t : Template)
    (hfind : templates.find? (fun x => x.id == id && x.companyId == companyId) = some t)
    (hst : t.status = TemplateStatus.APPROVED)
    (hid : truthyStr t.whatsappTemplateId = true) :
    updateTemplate templates companyId id updateData =
      Except.error "Cannot update approved template. Create a new version instead." ∧
    ∀ (nextId : Nat) (rt : RemoteTemplate) (e : Template),
      truthyStr rt.id = true →
      templates.find? (fun x => x.whatsappTemplateId == rt.id) = some e →
      (syncRemoteTemplate companyId templates nextId rt).1 =
        templates.map (fun x => if x.id == e.id then applySyncPayload rt x else x) ∧
      (applySyncPayload rt e).category = mapMetaCategory rt.category ∧
      (applySyncPayload rt e).status = mapMetaStatus rt.status ∧
      (applySyncPayload rt e).components = rt.components ∧
      (applySyncPayload rt e).name = rt.name := by
  constructor
  · unfold updateTemplate
    rw [hfind]
    simp [hst, hid]
  · intro nextId rt e htr hfe
    unfold syncRemoteTemplate
    simp only [htr, if_true, hfe]
    refine ⟨?_, rfl, rfl, rfl, rfl⟩
    first
    | rfl
    | trivial

/-- Witness for the amended C8: concrete APPROVED template with a remote
id — the update endpoint rejects, while the sync path overwrites its
category. -/
theorem C8_approved_immutability_witness :
    updateTemplate
      [{ id := 0, companyId := "c1", name := "welcome", language := "en",
         category := TemplateCategory.UTILITY, components := [],
         status := TemplateStatus.APPROVED, whatsappTemplateId := some "123" }]
      "c1" 0 {} =
      Except.error "Cannot update approved template. Create a new version instead." ∧
    (syncRemoteTemplate "c1"
      [{ id := 0, companyId := "c1", name := "welcome", language := "en",
         category := TemplateCategory.UTILITY, components := [],
         status := TemplateStatus.APPROVED, whatsappTemplateId := some "123" }] 1
      { id := some "123", name := "welcome", language := some "en",
        category := "MARKETING", status := "APPROVED", components := [],
        rejection_reason := none }).1 =
      [applySyncPayload
        { id := some "123", name := "welcome", language := some "en",
          category := "MARKETING", status := "APPROVED", components := [],
          rejection_reason := none }
        { id := 0, companyId := "c1", name := "welcome", language := "en",
          category := TemplateCategory.UTILITY, components := [],
          status := TemplateStatus.APPROVED, whatsappTemplateId := some "123" }] := by
  have H := C8_approved_immutability
    [{ id := 0, companyId := "c1", name := "welcome", language := "en",
       category := TemplateCategory.UTILITY, components := [],
       status := TemplateStatus.APPROVED, whatsappTemplateId := some "123" }]
    "c1" 0 {}
    { id := 0, companyId := "c1", name := "welcome", language := "en",
      category := TemplateCategory.UTILITY, components := [],
      status := TemplateStatus.APPROVED, whatsappTemplateId := some "123" }
    (by decide) rfl (by decide)
  refine ⟨H.1, ?_⟩
  rw [(H.2 1
    { id := some "123", name := "welcome", language := some "en",
      category := "MARKETING", status := "APPROVED", components := [],
      rejection_reason := none }
    { id := 0, companyId := "c1", name := "welcome", language := "en",
      category := TemplateCategory.UTILITY, components := [],
      status := TemplateStatus.APPROVED, whatsappTemplateId := some "123" }
    (by decide) (by decide)).1]
  decide
